import Mathlib

/-!
Verification development for the ROI baseline / performance fee service
(`sales_funnel_roi_service.py`).  Money and metric values are embedded as
rationals (`ℚ`); Python dictionaries that are read with `.get(key, 0)` are
embedded as total functions `String → ℚ` (a missing key reads as `0`).
Fallible operations return a result record carrying the service's
`success` flag and `error` string, paired with the updated funnel store.
-/

namespace SalesFunnelROI

/-- The common metric shape produced by `_standardize_baseline_metrics`:
ten numeric fields, all defaulting to zero. -/
structure StandardizedMetrics where
  total_revenue : ℚ
  total_transactions : ℚ
  conversion_rate : ℚ
  average_order_value : ℚ
  total_leads : ℚ
  cost_per_lead : ℚ
  customer_acquisition_cost : ℚ
  lifetime_value : ℚ
  roi_percentage : ℚ
  operational_costs : ℚ
deriving Repr, DecidableEq

/-- The all-zero record the standardizer starts from (the `standardized`
dict initializer in the source). -/
def zeroStandardized : StandardizedMetrics :=
  { total_revenue := 0
    total_transactions := 0
    conversion_rate := 0
    average_order_value := 0
    total_leads := 0
    cost_per_lead := 0
    customer_acquisition_cost := 0
    lifetime_value := 0
    roi_percentage := 0
    operational_costs := 0 }

/-- `_estimate_cac`: returns `0.0` when `customers == 0`, otherwise
`(revenue * 0.20) / customers`. -/
def estimate_cac (revenue customers : ℚ) : ℚ :=
  if customers = 0 then 0 else revenue * 0.20 / customers

/-- `_estimate_cost_per_lead`: returns `0.0` when `leads == 0`, otherwise
`min(25.0, 1000.0 / leads)`. -/
def estimate_cost_per_lead (leads : ℚ) : ℚ :=
  if leads = 0 then 0 else min 25 (1000 / leads)

/-- The trailing derivation block of `_standardize_baseline_metrics`:
`roi_percentage` is filled in when `operational_costs > 0` and
`lifetime_value` when `total_transactions > 0`. -/
def finishMetrics (s : StandardizedMetrics) : StandardizedMetrics :=
  let s :=
    if s.operational_costs > 0 then
      { s with roi_percentage :=
          (s.total_revenue - s.operational_costs) / s.operational_costs * 100 }
    else s
  if s.total_transactions > 0 then
    { s with lifetime_value := s.average_order_value * 2.5 }
  else s

/-- `_standardize_baseline_metrics`: platform-specific field mapping into
the common shape, then the generic ROI and lifetime-value derivations
(`finishMetrics`).  `metrics` and `baseline_data` are the raw
dictionaries, read with default `0`. -/
def standardize_baseline_metrics (platform : String)
    (metrics baseline_data : String → ℚ) : StandardizedMetrics :=
  let s := zeroStandardized
  let s :=
    if platform = "shopify" then
      { s with
        total_revenue := metrics "total_revenue"
        total_transactions := metrics "total_orders"
        conversion_rate := baseline_data "conversion_rate"
        average_order_value := metrics "average_order_value"
        total_leads := metrics "total_orders" + metrics "abandoned_checkouts"
        customer_acquisition_cost :=
          estimate_cac (metrics "total_revenue") (metrics "total_orders")
        operational_costs := metrics "total_revenue" * 0.3 }
    else if platform = "hubspot" then
      { s with
        total_revenue := metrics "total_revenue"
        total_transactions := metrics "closed_won_deals"
        conversion_rate := baseline_data "deal_close_rate"
        average_order_value := metrics "average_deal_value"
        total_leads := metrics "total_contacts"
        cost_per_lead := estimate_cost_per_lead (metrics "total_contacts")
        customer_acquisition_cost :=
          estimate_cac (metrics "total_revenue") (metrics "closed_won_deals") }
    else if platform = "google_analytics" then
      let revenue := metrics "total_revenue"
      let conversions := metrics "total_conversions"
      let sessions := metrics "total_sessions"
      { s with
        total_revenue := revenue
        total_transactions := conversions
        conversion_rate := baseline_data "conversion_rate"
        average_order_value := revenue / max 1 conversions
        total_leads := sessions
        cost_per_lead := estimate_cost_per_lead sessions
        customer_acquisition_cost := estimate_cac revenue conversions }
    else s
  finishMetrics s

/-- One entry of the `_calculate_improvements` result: baseline, current,
absolute change, relative percentage change, and the improved flag. -/
structure Improvement where
  baseline : ℚ
  current : ℚ
  absolute_change : ℚ
  percentage : ℚ
  improved : Bool
deriving Repr, DecidableEq

/-- The loop body of `_calculate_improvements` for one metric: guarded on
`baseline_value > 0`, with `improved` meaning the relative percentage
change exceeds `minimum_improvement_threshold * 100 = 5`. -/
def calc_improvement (baseline_value current_value : ℚ) : Improvement :=
  if baseline_value > 0 then
    let absolute_change := current_value - baseline_value
    let percentage_change := absolute_change / baseline_value * 100
    { baseline := baseline_value
      current := current_value
      absolute_change := absolute_change
      percentage := percentage_change
      improved := decide (percentage_change > 5) }
  else
    { baseline := baseline_value
      current := current_value
      absolute_change := current_value
      percentage := 0
      improved := false }

/-- The `_calculate_improvements` result for the four tracked metrics. -/
structure Improvements where
  total_revenue : Improvement
  conversion_rate : Improvement
  average_order_value : Improvement
  roi_percentage : Improvement
deriving Repr, DecidableEq

/-- `_calculate_improvements`: the loop over the four key metrics. -/
def calculate_improvements (baseline current : StandardizedMetrics) :
    Improvements :=
  { total_revenue :=
      calc_improvement baseline.total_revenue current.total_revenue
    conversion_rate :=
      calc_improvement baseline.conversion_rate current.conversion_rate
    average_order_value :=
      calc_improvement baseline.average_order_value current.average_order_value
    roi_percentage :=
      calc_improvement baseline.roi_percentage current.roi_percentage }

/-- One tier block of `_calculate_performance_targets`. -/
structure TierTargets where
  tier_1 : ℚ
  tier_2 : ℚ
  tier_3 : ℚ
  baseline : ℚ
deriving Repr, DecidableEq

/-- The `_calculate_performance_targets` output shape. -/
structure PerformanceTargets where
  revenue : TierTargets
  conversion_rate : TierTargets
  average_order_value : TierTargets
  roi_percentage : TierTargets
deriving Repr, DecidableEq

/-- `_calculate_performance_targets`: fixed multiplicative tiers for
revenue / conversion / AOV and additive tiers for ROI. -/
def calculate_performance_targets (baseline : StandardizedMetrics) :
    PerformanceTargets :=
  { revenue :=
      { tier_1 := baseline.total_revenue * 1.10
        tier_2 := baseline.total_revenue * 1.25
        tier_3 := baseline.total_revenue * 1.50
        baseline := baseline.total_revenue }
    conversion_rate :=
      { tier_1 := baseline.conversion_rate * 1.15
        tier_2 := baseline.conversion_rate * 1.30
        tier_3 := baseline.conversion_rate * 1.50
        baseline := baseline.conversion_rate }
    average_order_value :=
      { tier_1 := baseline.average_order_value * 1.10
        tier_2 := baseline.average_order_value * 1.20
        tier_3 := baseline.average_order_value * 1.35
        baseline := baseline.average_order_value }
    roi_percentage :=
      { tier_1 := baseline.roi_percentage + 15
        tier_2 := baseline.roi_percentage + 30
        tier_3 := baseline.roi_percentage + 50
        baseline := baseline.roi_percentage } }

/-- The `breakdown['revenue_fee']` record. -/
structure RevenueFeeEntry where
  incremental_revenue : ℚ
  fee_rate : ℚ
  fee_amount : ℚ
  improvement_percentage : ℚ
deriving Repr, DecidableEq

/-- The `breakdown['conversion_bonus']` record. -/
structure ConversionBonusEntry where
  improvement_percentage : ℚ
  bonus_rate : ℚ
  bonus_amount : ℚ
  applied_to_revenue : ℚ
deriving Repr, DecidableEq

/-- The `breakdown['aov_bonus']` record. -/
structure AovBonusEntry where
  improvement_percentage : ℚ
  bonus_rate : ℚ
  bonus_amount : ℚ
deriving Repr, DecidableEq

/-- The `breakdown['fee_cap_applied']` record. -/
structure FeeCapEntry where
  calculated_fees : ℚ
  capped_fees : ℚ
  cap_percentage : ℚ
deriving Repr, DecidableEq

/-- The fee breakdown map: each component is present exactly when the
source inserts the corresponding key. -/
structure Breakdown where
  revenue_fee : Option RevenueFeeEntry
  conversion_bonus : Option ConversionBonusEntry
  aov_bonus : Option AovBonusEntry
  fee_cap_applied : Option FeeCapEntry
deriving Repr, DecidableEq

/-- Banker's rounding to an integer (round half to even), the semantics
of Python's builtin `round`. -/
def roundHalfEven (x : ℚ) : ℤ :=
  let f := ⌊x⌋
  let r := x - f
  if r < 1/2 then f
  else if 1/2 < r then f + 1
  else if f % 2 = 0 then f
  else f + 1

/-- Embeds Python's `round(x, 2)`: round half to even at two decimals. -/
def round2 (x : ℚ) : ℚ := (roundHalfEven (x * 100) : ℚ) / 100

/-- The `_calculate_tiered_fees` result: rounded total, breakdown, and the
`fee_qualifying` flag (taken on the post-cap, pre-rounding total). -/
structure FeeCalculation where
  total_fees : ℚ
  breakdown : Breakdown
  fee_qualifying : Bool
deriving Repr, DecidableEq

/-- `_calculate_tiered_fees`: revenue fee on incremental revenue when the
revenue `improved` flag is set; conversion bonus when conversion improved
and its relative percentage exceeds 15; AOV bonus when AOV improved and
its relative percentage exceeds 10; then the 15%-of-current-revenue cap,
applied only when `current_revenue > 0`.  The running `total_fees`
accumulation of the source is written as a sum of guarded terms.
The `targets` argument is received but never read, exactly as in the
source. -/
def calculate_tiered_fees (improvements : Improvements)
    (targets : PerformanceTargets) (current_metrics : StandardizedMetrics)
    (fee_rate : ℚ) : FeeCalculation :=
  let ri := improvements.total_revenue
  let ci := improvements.conversion_rate
  let ai := improvements.average_order_value
  let current_revenue := current_metrics.total_revenue
  let incremental_revenue := max 0 ri.absolute_change
  let revenue_fee := incremental_revenue * fee_rate
  let conversion_bonus_rate := min 0.02 ((ci.percentage - 15) * 0.001)
  let conversion_bonus := current_revenue * conversion_bonus_rate
  let aov_bonus_rate := min 0.01 ((ai.percentage - 10) * 0.0005)
  let aov_bonus := current_revenue * aov_bonus_rate
  let revenue_entry : Option RevenueFeeEntry :=
    if ri.improved = true then
      some { incremental_revenue := incremental_revenue
             fee_rate := fee_rate
             fee_amount := revenue_fee
             improvement_percentage := ri.percentage }
    else none
  let conversion_entry : Option ConversionBonusEntry :=
    if ci.improved = true ∧ ci.percentage > 15 then
      some { improvement_percentage := ci.percentage
             bonus_rate := conversion_bonus_rate
             bonus_amount := conversion_bonus
             applied_to_revenue := current_revenue }
    else none
  let aov_entry : Option AovBonusEntry :=
    if ai.improved = true ∧ ai.percentage > 10 then
      some { improvement_percentage := ai.percentage
             bonus_rate := aov_bonus_rate
             bonus_amount := aov_bonus }
    else none
  let fees_before_cap :=
    (if ri.improved = true then revenue_fee else 0) +
    (if ci.improved = true ∧ ci.percentage > 15 then conversion_bonus else 0) +
    (if ai.improved = true ∧ ai.percentage > 10 then aov_bonus else 0)
  let max_fee_cap := current_revenue * 0.15
  let cap_entry : Option FeeCapEntry :=
    if fees_before_cap > max_fee_cap ∧ current_revenue > 0 then
      some { calculated_fees := fees_before_cap
             capped_fees := max_fee_cap
             cap_percentage := 0.15 }
    else none
  let total_fees :=
    if fees_before_cap > max_fee_cap ∧ current_revenue > 0 then max_fee_cap
    else fees_before_cap
  { total_fees := round2 total_fees
    breakdown :=
      { revenue_fee := revenue_entry
        conversion_bonus := conversion_entry
        aov_bonus := aov_entry
        fee_cap_applied := cap_entry }
    fee_qualifying := decide (total_fees > 0) }

/-- The `roi_baseline` blob stored into the funnel's automation rules by
`calculate_baseline_metrics`.  The wall-clock `calculation_date` and the
echoed `raw_platform_data` are not modelled (real time / redundant copy
of the inputs); the fields the computation reads are all present. -/
structure ROIBaseline where
  platform : String
  period_days : ℤ
  baseline_metrics : StandardizedMetrics
  performance_targets : PerformanceTargets
  fee_calculation_ready : Bool
deriving Repr, DecidableEq

/-- The `latest_performance` blob stored by `calculate_performance_fees`
(`calculation_date` again not modelled). -/
structure PerformanceData where
  baseline_metrics : StandardizedMetrics
  current_metrics : StandardizedMetrics
  improvements : Improvements
  fee_calculation : FeeCalculation
  fee_rate_applied : ℚ
  plan_name : String
deriving Repr, DecidableEq

/-- The funnel's `automation_rules` JSON blob, as far as this service
reads and writes it. -/
structure AutomationRules where
  roi_baseline : Option ROIBaseline
  latest_performance : Option PerformanceData
deriving Repr, DecidableEq

/-- The empty automation-rules blob (`{}` after `json.loads` of nothing). -/
def emptyAutomationRules : AutomationRules :=
  { roi_baseline := none, latest_performance := none }

/-- The `SalesFunnel` record fields this service touches. -/
structure SalesFunnel where
  user_id : ℤ
  funnel_name : String
  automation_rules : Option AutomationRules
  total_investment : ℚ
  generated_revenue : ℚ
  calculated_roi : ℚ
deriving Repr, DecidableEq

/-- The funnel store (`SalesFunnel.query.get`): funnel id to record. -/
def Store : Type := ℤ → Option SalesFunnel

/-- The `platform_data` / `current_period_data` payload: every field is
read with a `.get` default (`'unknown'`, `{}`, `{}`, `30`). -/
structure PlatformData where
  platform : Option String
  metrics : String → ℚ
  baseline_data : String → ℚ
  period_days : Option ℤ

/-- The plan-name to fee-rate table `performance_fee_rates`, with the
`.get(plan_name, 0.05)` default. -/
def performance_fee_rates (plan_name : String) : ℚ :=
  if plan_name = "starter" then 0.05
  else if plan_name = "professional" then 0.07
  else if plan_name = "enterprise" then 0.10
  else 0.05

/-- Result of `calculate_baseline_metrics`: the `success` flag, the
`error` string when failing, and the payload keys when succeeding. -/
structure BaselineResult where
  success : Bool
  error : Option String
  funnel_id : Option ℤ
  platform : Option String
  baseline_metrics : Option StandardizedMetrics
  performance_targets : Option PerformanceTargets
  baseline_revenue : Option ℚ
  baseline_conversion_rate : Option ℚ

/-- Result of `calculate_performance_fees`. -/
structure PerfFeeResult where
  success : Bool
  error : Option String
  funnel_id : Option ℤ
  baseline_revenue : Option ℚ
  current_revenue : Option ℚ
  revenue_improvement : Option ℚ
  total_fees : Option ℚ
  fee_breakdown : Option Breakdown
  fee_rate : Option ℚ
  qualifying_improvements : Option Improvements

/-- `calculate_baseline_metrics`: looks up the funnel (failing with
`'Funnel not found'`), standardizes the imported metrics, derives the
performance targets, stores the baseline into the funnel's automation
rules and updates the funnel's financial summary fields.  Returns the
result together with the updated store. -/
def calculate_baseline_metrics (store : Store) (funnel_id : ℤ)
    (platform_data : PlatformData) : BaselineResult × Store :=
  match store funnel_id with
  | none =>
      ({ success := false
         error := some "Funnel not found"
         funnel_id := none, platform := none, baseline_metrics := none
         performance_targets := none, baseline_revenue := none
         baseline_conversion_rate := none }, store)
  | some funnel =>
      let platform := platform_data.platform.getD "unknown"
      let metrics := platform_data.metrics
      let baseline_data := platform_data.baseline_data
      let period_days := platform_data.period_days.getD 30
      let standardized_baseline :=
        standardize_baseline_metrics platform metrics baseline_data
      let roi_baseline : ROIBaseline :=
        { platform := platform
          period_days := period_days
          baseline_metrics := standardized_baseline
          performance_targets :=
            calculate_performance_targets standardized_baseline
          fee_calculation_ready := true }
      let automation_rules := funnel.automation_rules.getD emptyAutomationRules
      let funnel' : SalesFunnel :=
        { funnel with
          automation_rules :=
            some { automation_rules with roi_baseline := some roi_baseline }
          total_investment := standardized_baseline.operational_costs
          generated_revenue := standardized_baseline.total_revenue
          calculated_roi := standardized_baseline.roi_percentage }
      let store' : Store := fun i => if i = funnel_id then some funnel' else store i
      ({ success := true
         error := none
         funnel_id := some funnel_id
         platform := some platform
         baseline_metrics := some standardized_baseline
         performance_targets := some roi_baseline.performance_targets
         baseline_revenue := some standardized_baseline.total_revenue
         baseline_conversion_rate := some standardized_baseline.conversion_rate },
       store')

/-- `calculate_performance_fees`: looks up the funnel (failing with
`'Funnel not found'`), requires a stored ROI baseline (failing with the
missing-baseline message), selects the fee rate from the subscription
plan (defaulting to `starter`), standardizes the current period,
computes improvements and tiered fees, and writes the latest
performance back onto the funnel.  The subscription collaborator is
modelled as a plan-name lookup by user id.  The returned
`revenue_improvement` reads key `'revenue'` of the improvements map,
which holds only `total_revenue`/`conversion_rate`/`average_order_value`
/`roi_percentage`, so the `.get` default `0` is always returned. -/
def calculate_performance_fees (store : Store)
    (subscription : ℤ → Option String) (funnel_id : ℤ)
    (current_period_data : PlatformData) : PerfFeeResult × Store :=
  match store funnel_id with
  | none =>
      ({ success := false
         error := some "Funnel not found"
         funnel_id := none, baseline_revenue := none, current_revenue := none
         revenue_improvement := none, total_fees := none, fee_breakdown := none
         fee_rate := none, qualifying_improvements := none }, store)
  | some funnel =>
      let automation_rules := funnel.automation_rules.getD emptyAutomationRules
      match automation_rules.roi_baseline with
      | none =>
          ({ success := false
             error := some "No ROI baseline found. Please import baseline data first."
             funnel_id := none, baseline_revenue := none, current_revenue := none
             revenue_improvement := none, total_fees := none
             fee_breakdown := none, fee_rate := none
             qualifying_improvements := none }, store)
      | some roi_baseline =>
          let plan_name :=
            match subscription funnel.user_id with
            | some s => s.toLower
            | none => "starter"
          let fee_rate := performance_fee_rates plan_name
          let baseline_metrics := roi_baseline.baseline_metrics
          let performance_targets := roi_baseline.performance_targets
          let current_metrics :=
            standardize_baseline_metrics
              (current_period_data.platform.getD roi_baseline.platform)
              current_period_data.metrics current_period_data.baseline_data
          let improvements :=
            calculate_improvements baseline_metrics current_metrics
          let fee_calculation :=
            calculate_tiered_fees improvements performance_targets
              current_metrics fee_rate
          let performance_data : PerformanceData :=
            { baseline_metrics := baseline_metrics
              current_metrics := current_metrics
              improvements := improvements
              fee_calculation := fee_calculation
              fee_rate_applied := fee_rate
              plan_name := plan_name }
          let funnel' : SalesFunnel :=
            { funnel with
              generated_revenue := current_metrics.total_revenue
              calculated_roi := current_metrics.roi_percentage
              automation_rules :=
                some { automation_rules with
                       latest_performance := some performance_data } }
          let store' : Store :=
            fun i => if i = funnel_id then some funnel' else store i
          ({ success := true
             error := none
             funnel_id := some funnel_id
             baseline_revenue := some baseline_metrics.total_revenue
             current_revenue := some current_metrics.total_revenue
             revenue_improvement := some 0
             total_fees := some fee_calculation.total_fees
             fee_breakdown := some fee_calculation.breakdown
             fee_rate := some fee_rate
             qualifying_improvements := some improvements }, store')

end SalesFunnelROI


/-! ## Claim theorems -/

namespace SalesFunnelROI

/-- C1 counterexample: with a baseline conversion rate of 2.0 and a
current conversion rate of 2.5 the absolute improvement is only 0.5
percentage points (not above 15), yet `_calculate_tiered_fees` does
record a `conversion_bonus` component, because the trigger compares the
relative percentage change (25 here) against 15. -/
theorem conversion_bonus_fires_at_small_absolute_change :
    (calc_improvement 2 (5/2)).absolute_change = 1/2 ∧
    ¬((calc_improvement 2 (5/2)).absolute_change > 15) ∧
    (calculate_tiered_fees
      { total_revenue := calc_improvement 100000 100000
        conversion_rate := calc_improvement 2 (5/2)
        average_order_value := calc_improvement 500 500
        roi_percentage := calc_improvement 0 0 }
      (calculate_performance_targets zeroStandardized)
      { zeroStandardized with total_revenue := 1000 }
      0.07).breakdown.conversion_bonus.isSome = true := by
  refine ⟨by norm_num [calc_improvement], by norm_num [calc_improvement], ?_⟩
  norm_num [calculate_tiered_fees, calc_improvement, zeroStandardized]

/-- C1 (amended): the conversion bonus component is recorded if and only
if the conversion-rate `improved` flag is set (relative change above 5%)
and the relative percentage improvement exceeds 15 — a relative-percent
threshold, not 15 absolute percentage points; in particular a 2.0% → 2.5%
conversion-rate move (25% relative improvement) does trigger the bonus. -/
theorem conversion_bonus_iff_relative_improvement
    (imps : Improvements) (tgts : PerformanceTargets)
    (cm : StandardizedMetrics) (fee_rate : ℚ) :
    (calculate_tiered_fees imps tgts cm fee_rate).breakdown.conversion_bonus.isSome
      = true ↔
    (imps.conversion_rate.improved = true ∧
      imps.conversion_rate.percentage > 15) := by
  simp only [calculate_tiered_fees]
  split_ifs with h <;> simp [h]

/-- C5: for each of the four tracked metrics, a zero baseline value makes
`_calculate_improvements` report percentage 0 and improved = false,
whatever the current value is. -/
theorem zero_baseline_improvement_policy (b c : StandardizedMetrics) :
    (b.total_revenue = 0 →
      (calculate_improvements b c).total_revenue.percentage = 0 ∧
      (calculate_improvements b c).total_revenue.improved = false) ∧
    (b.conversion_rate = 0 →
      (calculate_improvements b c).conversion_rate.percentage = 0 ∧
      (calculate_improvements b c).conversion_rate.improved = false) ∧
    (b.average_order_value = 0 →
      (calculate_improvements b c).average_order_value.percentage = 0 ∧
      (calculate_improvements b c).average_order_value.improved = false) ∧
    (b.roi_percentage = 0 →
      (calculate_improvements b c).roi_percentage.percentage = 0 ∧
      (calculate_improvements b c).roi_percentage.improved = false) := by
  refine ⟨fun h => ?_, fun h => ?_, fun h => ?_, fun h => ?_⟩ <;>
    simp [calculate_improvements, calc_improvement, h]

/-- C5 witness: the policy at an all-zero baseline against a nonzero
current period. -/
theorem zero_baseline_improvement_policy_inst :
    ((calculate_improvements zeroStandardized
        { total_revenue := 7, total_transactions := 7, conversion_rate := 7
          average_order_value := 7, total_leads := 7, cost_per_lead := 7
          customer_acquisition_cost := 7, lifetime_value := 7
          roi_percentage := 7, operational_costs := 7 }).total_revenue.percentage
        = 0 ∧
      (calculate_improvements zeroStandardized
        { total_revenue := 7, total_transactions := 7, conversion_rate := 7
          average_order_value := 7, total_leads := 7, cost_per_lead := 7
          customer_acquisition_cost := 7, lifetime_value := 7
          roi_percentage := 7, operational_costs := 7 }).total_revenue.improved
        = false) ∧
    ((calculate_improvements zeroStandardized
        { total_revenue := 7, total_transactions := 7, conversion_rate := 7
          average_order_value := 7, total_leads := 7, cost_per_lead := 7
          customer_acquisition_cost := 7, lifetime_value := 7
          roi_percentage := 7, operational_costs := 7 }).conversion_rate.percentage
        = 0 ∧
      (calculate_improvements zeroStandardized
        { total_revenue := 7, total_transactions := 7, conversion_rate := 7
          average_order_value := 7, total_leads := 7, cost_per_lead := 7
          customer_acquisition_cost := 7, lifetime_value := 7
          roi_percentage := 7, operational_costs := 7 }).conversion_rate.improved
        = false) := by
  refine ⟨?_, ?_⟩
  · exact (zero_baseline_improvement_policy zeroStandardized _).1 rfl
  · exact (zero_baseline_improvement_policy zeroStandardized _).2.1 rfl

/-- C8 counterexample: with revenue 100 and zero transactions,
`_estimate_cac` returns 0, not the claimed `0.20 × revenue / max(1, n)`
which would be 20. -/
theorem estimate_cac_zero_customers_cex :
    estimate_cac 100 0 = 0 ∧
    (100:ℚ) * 0.20 / max 1 (0:ℚ) = 20 ∧
    estimate_cac 100 0 ≠ (100:ℚ) * 0.20 / max 1 (0:ℚ) := by
  norm_num [estimate_cac]

/-- C8 (amended): for at least one transaction the estimate agrees with
the claimed `0.20 × revenue / max(1, transaction_count)` formula, but
with zero transactions `_estimate_cac` short-circuits to 0. -/
theorem estimate_cac_formula (revenue customers : ℚ)
    (h : 1 ≤ customers) :
    estimate_cac revenue customers = revenue * 0.20 / max 1 customers ∧
    estimate_cac revenue 0 = 0 := by
  constructor
  · have hne : customers ≠ 0 := by
      intro e
      rw [e] at h
      norm_num at h
    rw [estimate_cac, if_neg hne, max_eq_right h]
  · simp [estimate_cac]

/-- C8 witness: the amended formula at revenue 100 and 5 customers. -/
theorem estimate_cac_formula_inst :
    estimate_cac 100 5 = 100 * 0.20 / max 1 (5:ℚ) ∧
    estimate_cac 100 0 = 0 :=
  estimate_cac_formula 100 5 (by norm_num)

/-- C9: any platform identifier outside {shopify, hubspot,
google_analytics} standardizes every raw input to the all-zero record;
the mapper is a total function, so no error is signalled. -/
theorem unknown_platform_all_zero (platform : String)
    (metrics baseline_data : String → ℚ)
    (h1 : platform ≠ "shopify") (h2 : platform ≠ "hubspot")
    (h3 : platform ≠ "google_analytics") :
    standardize_baseline_metrics platform metrics baseline_data =
      zeroStandardized := by
  simp [standardize_baseline_metrics, finishMetrics, h1, h2, h3,
    zeroStandardized]

/-- C9 witness: an unrecognized platform with nonzero raw data maps to
the all-zero record. -/
theorem unknown_platform_all_zero_inst :
    standardize_baseline_metrics "stripe" (fun _ => 42) (fun _ => 9) =
      zeroStandardized :=
  unknown_platform_all_zero "stripe" (fun _ => 42) (fun _ => 9)
    (by decide) (by decide) (by decide)

end SalesFunnelROI

namespace SalesFunnelROI

/-- Half-up rounding to 2 decimals, following the spec's words
("standard half-up rounding expected for currency"); kept separate from
`round2` (the source's Python `round`) so the two can be compared. -/
def roundHalfUp2 (x : ℚ) : ℚ := ((⌊x * 100 + 1/2⌋ : ℤ) : ℚ) / 100

/-- The sum of the fee amounts recorded in a breakdown's components. -/
def feeComponentsSum (b : Breakdown) : ℚ :=
  (match b.revenue_fee with
   | some e => e.fee_amount
   | none => 0) +
  (match b.conversion_bonus with
   | some e => e.bonus_amount
   | none => 0) +
  (match b.aov_bonus with
   | some e => e.bonus_amount
   | none => 0)

lemma roundHalfEven_le (x : ℚ) : (roundHalfEven x : ℚ) ≤ x + 1/2 := by
  simp only [roundHalfEven]
  have h1 : (⌊x⌋ : ℚ) ≤ x := Int.floor_le x
  split_ifs with a b c
  · linarith
  · push_cast
    linarith
  · linarith
  · push_cast
    have hb' : x - ⌊x⌋ ≤ 1/2 := not_lt.mp b
    linarith

lemma round2_le (x : ℚ) : round2 x ≤ x + 1/200 := by
  unfold round2
  have h := roundHalfEven_le (x * 100)
  rw [div_le_iff₀ (by norm_num : (0:ℚ) < 100)]
  linarith

lemma roundHalfEven_eq_of_ne_half (x : ℚ) (h : x - ⌊x⌋ ≠ 1/2) :
    roundHalfEven x = ⌊x + 1/2⌋ := by
  simp only [roundHalfEven]
  have h0 : (0:ℚ) ≤ x - ⌊x⌋ := sub_nonneg.mpr (Int.floor_le x)
  have h1 : x - ⌊x⌋ < 1 := by
    have := Int.lt_floor_add_one x
    linarith
  split_ifs with a b c
  · symm
    rw [Int.floor_eq_iff]
    constructor
    · linarith
    · linarith
  · symm
    rw [Int.floor_eq_iff]
    constructor
    · push_cast
      linarith
    · push_cast
      linarith
  · exact absurd (le_antisymm (not_lt.mp b) (not_lt.mp a)) h
  · exact absurd (le_antisymm (not_lt.mp b) (not_lt.mp a)) h

lemma feeComponentsSum_tiered (imps : Improvements) (tgts : PerformanceTargets)
    (cm : StandardizedMetrics) (r : ℚ) :
    feeComponentsSum (calculate_tiered_fees imps tgts cm r).breakdown =
      (if imps.total_revenue.improved = true
        then max 0 imps.total_revenue.absolute_change * r else 0) +
      (if imps.conversion_rate.improved = true ∧
            imps.conversion_rate.percentage > 15
        then cm.total_revenue *
          min 0.02 ((imps.conversion_rate.percentage - 15) * 0.001) else 0) +
      (if imps.average_order_value.improved = true ∧
            imps.average_order_value.percentage > 10
        then cm.total_revenue *
          min 0.01 ((imps.average_order_value.percentage - 10) * 0.0005)
        else 0) := by
  simp only [calculate_tiered_fees, feeComponentsSum]
  split_ifs <;> rfl

lemma total_fees_tiered (imps : Improvements) (tgts : PerformanceTargets)
    (cm : StandardizedMetrics) (r : ℚ) :
    (calculate_tiered_fees imps tgts cm r).total_fees =
      round2
        (if feeComponentsSum (calculate_tiered_fees imps tgts cm r).breakdown >
              cm.total_revenue * 0.15 ∧ cm.total_revenue > 0
         then cm.total_revenue * 0.15
         else feeComponentsSum (calculate_tiered_fees imps tgts cm r).breakdown) := by
  rw [feeComponentsSum_tiered]
  simp only [calculate_tiered_fees]

lemma fee_cap_entry_tiered (imps : Improvements) (tgts : PerformanceTargets)
    (cm : StandardizedMetrics) (r : ℚ) :
    (calculate_tiered_fees imps tgts cm r).breakdown.fee_cap_applied =
      (if feeComponentsSum (calculate_tiered_fees imps tgts cm r).breakdown >
            cm.total_revenue * 0.15 ∧ cm.total_revenue > 0
       then some
          { calculated_fees :=
              feeComponentsSum (calculate_tiered_fees imps tgts cm r).breakdown
            capped_fees := cm.total_revenue * 0.15
            cap_percentage := 0.15 }
       else none) := by
  rw [feeComponentsSum_tiered]
  simp only [calculate_tiered_fees]

end SalesFunnelROI

namespace SalesFunnelROI

/-- C2 counterexample: with zero current revenue the cap branch is
skipped entirely (`current_revenue > 0` fails), so an improvement map
claiming improved revenue with a positive absolute change produces a
total fee of 5, which exceeds 0.15 × 0 = 0. -/
theorem fee_cap_skipped_at_zero_revenue :
    (calculate_tiered_fees
      { total_revenue :=
          { baseline := 0, current := 0, absolute_change := 100
            percentage := 10, improved := true }
        conversion_rate := calc_improvement 0 0
        average_order_value := calc_improvement 0 0
        roi_percentage := calc_improvement 0 0 }
      (calculate_performance_targets zeroStandardized)
      zeroStandardized 0.05).total_fees = 5 ∧
    ¬((calculate_tiered_fees
      { total_revenue :=
          { baseline := 0, current := 0, absolute_change := 100
            percentage := 10, improved := true }
        conversion_rate := calc_improvement 0 0
        average_order_value := calc_improvement 0 0
        roi_percentage := calc_improvement 0 0 }
      (calculate_performance_targets zeroStandardized)
      zeroStandardized 0.05).total_fees ≤
        0.15 * zeroStandardized.total_revenue) := by
  have h : (calculate_tiered_fees
      { total_revenue :=
          { baseline := 0, current := 0, absolute_change := 100
            percentage := 10, improved := true }
        conversion_rate := calc_improvement 0 0
        average_order_value := calc_improvement 0 0
        roi_percentage := calc_improvement 0 0 }
      (calculate_performance_targets zeroStandardized)
      zeroStandardized 0.05).total_fees = 5 := by
    norm_num [calculate_tiered_fees, calc_improvement, zeroStandardized,
      round2, roundHalfEven]
  refine ⟨h, ?_⟩
  rw [h]
  norm_num [zeroStandardized]

/-- C2 (amended): when current revenue is positive, the pre-rounding
total is capped at 0.15 × current revenue, so the returned (2-decimal
rounded) total exceeds the cap by at most 1/200; and the breakdown
records the pre-cap component sum (`calculated_fees`) and the capped
value (`capped_fees`) exactly when the component sum exceeds the cap.
When current revenue is zero the source skips the cap branch, which is
what the counterexample exhibits. -/
theorem fee_cap_with_positive_revenue (imps : Improvements)
    (tgts : PerformanceTargets) (cm : StandardizedMetrics) (r : ℚ)
    (h : 0 < cm.total_revenue) :
    (calculate_tiered_fees imps tgts cm r).total_fees ≤
      cm.total_revenue * 0.15 + 1/200 ∧
    (calculate_tiered_fees imps tgts cm r).breakdown.fee_cap_applied =
      (if feeComponentsSum (calculate_tiered_fees imps tgts cm r).breakdown >
            cm.total_revenue * 0.15
       then some
          { calculated_fees :=
              feeComponentsSum (calculate_tiered_fees imps tgts cm r).breakdown
            capped_fees := cm.total_revenue * 0.15
            cap_percentage := 0.15 }
       else none) := by
  constructor
  · rw [total_fees_tiered]
    split_ifs with hc
    · have := round2_le (cm.total_revenue * 0.15)
      linarith
    · have hle : feeComponentsSum
          (calculate_tiered_fees imps tgts cm r).breakdown ≤
          cm.total_revenue * 0.15 := by
        by_contra hgt
        exact hc ⟨lt_of_not_le hgt, h⟩
      have := round2_le
        (feeComponentsSum (calculate_tiered_fees imps tgts cm r).breakdown)
      linarith
  · rw [fee_cap_entry_tiered]
    simp [h]

/-- C2 witness: a concrete input where the cap triggers — component sum
50 against a cap of 15 on current revenue 100 — so the recorded entry
carries both values and the rounded total stays within the slack. -/
theorem fee_cap_with_positive_revenue_inst :
    (calculate_tiered_fees
      { total_revenue :=
          { baseline := 10, current := 1010, absolute_change := 1000
            percentage := 10000, improved := true }
        conversion_rate := calc_improvement 0 0
        average_order_value := calc_improvement 0 0
        roi_percentage := calc_improvement 0 0 }
      (calculate_performance_targets zeroStandardized)
      { zeroStandardized with total_revenue := 100 } 0.05).total_fees ≤
      ({ zeroStandardized with
          total_revenue := 100 } : StandardizedMetrics).total_revenue * 0.15 +
        1/200 ∧
    (calculate_tiered_fees
      { total_revenue :=
          { baseline := 10, current := 1010, absolute_change := 1000
            percentage := 10000, improved := true }
        conversion_rate := calc_improvement 0 0
        average_order_value := calc_improvement 0 0
        roi_percentage := calc_improvement 0 0 }
      (calculate_performance_targets zeroStandardized)
      { zeroStandardized with total_revenue := 100 } 0.05).breakdown.fee_cap_applied =
      (if feeComponentsSum (calculate_tiered_fees
            { total_revenue :=
                { baseline := 10, current := 1010, absolute_change := 1000
                  percentage := 10000, improved := true }
              conversion_rate := calc_improvement 0 0
              average_order_value := calc_improvement 0 0
              roi_percentage := calc_improvement 0 0 }
            (calculate_performance_targets zeroStandardized)
            { zeroStandardized with total_revenue := 100 } 0.05).breakdown >
            ({ zeroStandardized with
                total_revenue := 100 } : StandardizedMetrics).total_revenue * 0.15
       then some
          { calculated_fees :=
              feeComponentsSum (calculate_tiered_fees
                { total_revenue :=
                    { baseline := 10, current := 1010, absolute_change := 1000
                      percentage := 10000, improved := true }
                  conversion_rate := calc_improvement 0 0
                  average_order_value := calc_improvement 0 0
                  roi_percentage := calc_improvement 0 0 }
                (calculate_performance_targets zeroStandardized)
                { zeroStandardized with total_revenue := 100 } 0.05).breakdown
            capped_fees := ({ zeroStandardized with
                total_revenue := 100 } : StandardizedMetrics).total_revenue * 0.15
            cap_percentage := 0.15 }
       else none) :=
  fee_cap_with_positive_revenue _ _ _ _ (by norm_num [zeroStandardized])

/-- C3: with revenue improving from 100000 to 130000 under a 7% fee rate
and conversion/AOV improvements at or below their bonus thresholds, the
improvement is 30% (above the 5% threshold), the revenue fee is
30000 × 0.07 = 2100, and the total is exactly 2100 with no cap entry. -/
theorem professional_plan_example (imps : Improvements)
    (tgts : PerformanceTargets) (cm : StandardizedMetrics)
    (h1 : imps.total_revenue = calc_improvement 100000 130000)
    (h2 : imps.conversion_rate.percentage ≤ 15)
    (h3 : imps.average_order_value.percentage ≤ 10)
    (h4 : cm.total_revenue = 130000) :
    imps.total_revenue.percentage = 30 ∧
    imps.total_revenue.improved = true ∧
    (calculate_tiered_fees imps tgts cm 0.07).breakdown.revenue_fee =
      some { incremental_revenue := 30000, fee_rate := 0.07
             fee_amount := 2100, improvement_percentage := 30 } ∧
    (calculate_tiered_fees imps tgts cm 0.07).total_fees = 2100 ∧
    (calculate_tiered_fees imps tgts cm 0.07).breakdown.fee_cap_applied =
      none := by
  have e : calc_improvement 100000 130000 =
      { baseline := 100000, current := 130000, absolute_change := 30000
        percentage := 30, improved := true } := by
    norm_num [calc_improvement]
  rw [e] at h1
  have hc : ¬(imps.conversion_rate.improved = true ∧
      imps.conversion_rate.percentage > 15) :=
    fun hx => absurd hx.2 (not_lt.mpr h2)
  have ha : ¬(imps.average_order_value.improved = true ∧
      imps.average_order_value.percentage > 10) :=
    fun hx => absurd hx.2 (not_lt.mpr h3)
  refine ⟨by rw [h1], by rw [h1], ?_⟩
  norm_num [calculate_tiered_fees, h1, h4, hc, ha, round2, roundHalfEven]

/-- The worked example's baseline period: revenue 100000, conversion
rate 2, AOV 500. -/
def exampleBaseline : StandardizedMetrics :=
  { zeroStandardized with
    total_revenue := 100000
    conversion_rate := 2
    average_order_value := 500 }

/-- The worked example's current period: revenue 130000 with conversion
and AOV unchanged, so both bonus thresholds are unmet. -/
def exampleCurrent : StandardizedMetrics :=
  { zeroStandardized with
    total_revenue := 130000
    conversion_rate := 2
    average_order_value := 500 }

/-- C3 witness: the example run end to end from concrete standardized
metrics. -/
theorem professional_plan_example_inst :
    (calculate_improvements exampleBaseline
        exampleCurrent).total_revenue.percentage = 30 ∧
    (calculate_improvements exampleBaseline
        exampleCurrent).total_revenue.improved = true ∧
    (calculate_tiered_fees
        (calculate_improvements exampleBaseline exampleCurrent)
        (calculate_performance_targets exampleBaseline)
        exampleCurrent 0.07).breakdown.revenue_fee =
      some { incremental_revenue := 30000, fee_rate := 0.07
             fee_amount := 2100, improvement_percentage := 30 } ∧
    (calculate_tiered_fees
        (calculate_improvements exampleBaseline exampleCurrent)
        (calculate_performance_targets exampleBaseline)
        exampleCurrent 0.07).total_fees = 2100 ∧
    (calculate_tiered_fees
        (calculate_improvements exampleBaseline exampleCurrent)
        (calculate_performance_targets exampleBaseline)
        exampleCurrent 0.07).breakdown.fee_cap_applied = none :=
  professional_plan_example _ _ _
    (by norm_num [calculate_improvements, exampleBaseline, exampleCurrent,
      zeroStandardized])
    (by norm_num [calculate_improvements, calc_improvement, exampleBaseline,
      exampleCurrent, zeroStandardized])
    (by norm_num [calculate_improvements, calc_improvement, exampleBaseline,
      exampleCurrent, zeroStandardized])
    (by norm_num [exampleCurrent, zeroStandardized])

end SalesFunnelROI

namespace SalesFunnelROI

/-- C7 counterexample: a component sum of exactly 1/8 (incremental
revenue 2.5 at the 5% starter rate, no cap) is returned as 0.12 by the
source's Python `round` (half to even), while half-up rounding of the
same capped sum gives 0.13. -/
theorem rounding_not_half_up_cex :
    feeComponentsSum (calculate_tiered_fees
      { total_revenue :=
          { baseline := 50, current := 105/2, absolute_change := 5/2
            percentage := 5, improved := true }
        conversion_rate := calc_improvement 0 0
        average_order_value := calc_improvement 0 0
        roi_percentage := calc_improvement 0 0 }
      (calculate_performance_targets zeroStandardized)
      { zeroStandardized with total_revenue := 1000 } 0.05).breakdown = 1/8 ∧
    (calculate_tiered_fees
      { total_revenue :=
          { baseline := 50, current := 105/2, absolute_change := 5/2
            percentage := 5, improved := true }
        conversion_rate := calc_improvement 0 0
        average_order_value := calc_improvement 0 0
        roi_percentage := calc_improvement 0 0 }
      (calculate_performance_targets zeroStandardized)
      { zeroStandardized with total_revenue := 1000 } 0.05).total_fees =
      12/100 ∧
    roundHalfUp2 (1/8) = 13/100 ∧
    (12:ℚ)/100 ≠ 13/100 := by
  refine ⟨?_, ?_, ?_, by norm_num⟩
  · norm_num [feeComponentsSum, calculate_tiered_fees, calc_improvement,
      zeroStandardized]
  · norm_num [calculate_tiered_fees, calc_improvement, zeroStandardized,
      round2, roundHalfEven]
  · norm_num [roundHalfUp2]

/-- C7 (amended): the returned total is the capped component sum rounded
to 2 decimals with round-half-to-even (the semantics of Python's builtin
`round`), which agrees with half-up rounding except when the scaled
value sits exactly on a half, where it rounds to the even cent. -/
theorem total_fees_rounded_half_even (imps : Improvements)
    (tgts : PerformanceTargets) (cm : StandardizedMetrics) (r : ℚ) :
    (calculate_tiered_fees imps tgts cm r).total_fees =
      round2
        (if feeComponentsSum (calculate_tiered_fees imps tgts cm r).breakdown >
              cm.total_revenue * 0.15 ∧ cm.total_revenue > 0
         then cm.total_revenue * 0.15
         else feeComponentsSum
            (calculate_tiered_fees imps tgts cm r).breakdown) ∧
    (∀ x : ℚ, x * 100 - ⌊x * 100⌋ ≠ 1/2 → round2 x = roundHalfUp2 x) := by
  refine ⟨total_fees_tiered imps tgts cm r, fun x hx => ?_⟩
  rw [round2, roundHalfUp2, roundHalfEven_eq_of_ne_half _ hx]

/-- C7 witness: the rounding identity at a concrete run together with
the half-up agreement away from ties (at 0.121). -/
theorem total_fees_rounded_half_even_inst :
    (calculate_tiered_fees
      { total_revenue := calc_improvement 100 200
        conversion_rate := calc_improvement 0 0
        average_order_value := calc_improvement 0 0
        roi_percentage := calc_improvement 0 0 }
      (calculate_performance_targets zeroStandardized)
      { zeroStandardized with total_revenue := 200 } 0.05).total_fees =
      round2
        (if feeComponentsSum (calculate_tiered_fees
              { total_revenue := calc_improvement 100 200
                conversion_rate := calc_improvement 0 0
                average_order_value := calc_improvement 0 0
                roi_percentage := calc_improvement 0 0 }
              (calculate_performance_targets zeroStandardized)
              { zeroStandardized with total_revenue := 200 } 0.05).breakdown >
              ({ zeroStandardized with
                  total_revenue := 200 } : StandardizedMetrics).total_revenue
                * 0.15 ∧
              ({ zeroStandardized with
                  total_revenue := 200 } : StandardizedMetrics).total_revenue > 0
         then ({ zeroStandardized with
                  total_revenue := 200 } : StandardizedMetrics).total_revenue
                * 0.15
         else feeComponentsSum (calculate_tiered_fees
              { total_revenue := calc_improvement 100 200
                conversion_rate := calc_improvement 0 0
                average_order_value := calc_improvement 0 0
                roi_percentage := calc_improvement 0 0 }
              (calculate_performance_targets zeroStandardized)
              { zeroStandardized with total_revenue := 200 } 0.05).breakdown) ∧
    round2 (121/1000) = roundHalfUp2 (121/1000) :=
  ⟨(total_fees_rounded_half_even _ _ _ _).1,
   (total_fees_rounded_half_even
      { total_revenue := calc_improvement 100 200
        conversion_rate := calc_improvement 0 0
        average_order_value := calc_improvement 0 0
        roi_percentage := calc_improvement 0 0 }
      (calculate_performance_targets zeroStandardized)
      { zeroStandardized with total_revenue := 200 } 0.05).2 (121/1000)
      (by norm_num)⟩

/-- The `revenue_fee` component's amount in a fee calculation, read with
the `.get` default 0 when the component is absent. -/
def revenueFeeAmount (fc : FeeCalculation) : ℚ :=
  match fc.breakdown.revenue_fee with
  | some e => e.fee_amount
  | none => 0

lemma revenueFeeAmount_tiered (imps : Improvements)
    (tgts : PerformanceTargets) (cm : StandardizedMetrics) (r : ℚ) :
    revenueFeeAmount (calculate_tiered_fees imps tgts cm r) =
      if imps.total_revenue.improved = true
      then max 0 imps.total_revenue.absolute_change * r else 0 := by
  simp only [revenueFeeAmount, calculate_tiered_fees]
  split_ifs <;> rfl

lemma improved_iff (b c : ℚ) (hb : 0 < b) :
    (calc_improvement b c).improved = true ↔ b / 20 < c - b := by
  rw [calc_improvement, if_pos hb]
  simp only [decide_eq_true_eq, gt_iff_lt, div_mul_eq_mul_div,
    lt_div_iff₀ hb]
  constructor <;> intro h <;> linarith

/-- C4: with a nonnegative fee rate and a positive baseline, the revenue
fee component computed from `_calculate_improvements`' revenue entry is
monotone non-decreasing in current − baseline revenue, vanishes whenever
current ≤ baseline, and equals max(0, current − baseline) × fee_rate as
soon as the improvement clears the 5% `improved` threshold. -/
theorem revenue_fee_monotone (tgts : PerformanceTargets)
    (cm : StandardizedMetrics) (fee_rate b : ℚ)
    (hr : 0 ≤ fee_rate) (hb : 0 < b) (imps : ℚ → Improvements)
    (him : ∀ c, (imps c).total_revenue = calc_improvement b c) :
    (∀ c₁ c₂, c₁ - b ≤ c₂ - b →
      revenueFeeAmount (calculate_tiered_fees (imps c₁) tgts cm fee_rate) ≤
        revenueFeeAmount (calculate_tiered_fees (imps c₂) tgts cm fee_rate)) ∧
    (∀ c, c ≤ b →
      revenueFeeAmount (calculate_tiered_fees (imps c) tgts cm fee_rate) = 0) ∧
    (∀ c, (calc_improvement b c).improved = true →
      revenueFeeAmount (calculate_tiered_fees (imps c) tgts cm fee_rate) =
        max 0 (c - b) * fee_rate) := by
  have habs : ∀ c, (calc_improvement b c).absolute_change = c - b := by
    intro c
    rw [calc_improvement, if_pos hb]
  have key : ∀ c,
      revenueFeeAmount (calculate_tiered_fees (imps c) tgts cm fee_rate) =
        if b / 20 < c - b then (c - b) * fee_rate else 0 := by
    intro c
    rw [revenueFeeAmount_tiered, him c]
    by_cases h : b / 20 < c - b
    · rw [if_pos ((improved_iff b c hb).mpr h), if_pos h, habs c,
        max_eq_right]
      have : 0 < b / 20 := by positivity
      linarith
    · rw [if_neg (fun hi => h ((improved_iff b c hb).mp hi)), if_neg h]
  refine ⟨fun c₁ c₂ hle => ?_, fun c hc => ?_, fun c hi => ?_⟩
  · rw [key, key]
    split_ifs with h1 h2 h2
    · exact mul_le_mul_of_nonneg_right (by linarith) hr
    · exact absurd (lt_of_lt_of_le h1 hle) h2
    · have h20 : 0 < b / 20 := by positivity
      exact mul_nonneg (by linarith) hr
    · exact le_refl 0
  · rw [key, if_neg]
    intro h
    have : 0 < b / 20 := by positivity
    linarith
  · have h := (improved_iff b c hb).mp hi
    have h20 : 0 < b / 20 := by positivity
    rw [key, if_pos h, max_eq_right (by linarith)]

/-- C4 witness: at baseline 100000 with the professional 7% rate, a
current revenue of 90000 (current ≤ baseline) yields a zero revenue
fee. -/
theorem revenue_fee_monotone_inst :
    revenueFeeAmount (calculate_tiered_fees
      { total_revenue := calc_improvement 100000 90000
        conversion_rate := calc_improvement 0 0
        average_order_value := calc_improvement 0 0
        roi_percentage := calc_improvement 0 0 }
      (calculate_performance_targets zeroStandardized)
      { zeroStandardized with total_revenue := 90000 } 0.07) = 0 :=
  (revenue_fee_monotone (calculate_performance_targets zeroStandardized)
    { zeroStandardized with total_revenue := 90000 } 0.07 100000
    (by norm_num) (by norm_num)
    (fun c =>
      { total_revenue := calc_improvement 100000 c
        conversion_rate := calc_improvement 0 0
        average_order_value := calc_improvement 0 0
        roi_percentage := calc_improvement 0 0 })
    (fun c => rfl)).2.1 90000 (by norm_num)

end SalesFunnelROI

namespace SalesFunnelROI

/-- All ten fields of a standardized record are nonnegative. -/
def NonnegMetrics (s : StandardizedMetrics) : Prop :=
  0 ≤ s.total_revenue ∧ 0 ≤ s.total_transactions ∧
  0 ≤ s.conversion_rate ∧ 0 ≤ s.average_order_value ∧
  0 ≤ s.total_leads ∧ 0 ≤ s.cost_per_lead ∧
  0 ≤ s.customer_acquisition_cost ∧ 0 ≤ s.lifetime_value ∧
  0 ≤ s.roi_percentage ∧ 0 ≤ s.operational_costs

lemma estimate_cac_nonneg (revenue customers : ℚ) (hr : 0 ≤ revenue)
    (hc : 0 ≤ customers) : 0 ≤ estimate_cac revenue customers := by
  rw [estimate_cac]
  split_ifs
  · exact le_refl 0
  · exact div_nonneg (mul_nonneg hr (by norm_num)) hc

lemma estimate_cost_per_lead_nonneg (leads : ℚ) (hl : 0 ≤ leads) :
    0 ≤ estimate_cost_per_lead leads := by
  rw [estimate_cost_per_lead]
  split_ifs
  · exact le_refl 0
  · exact le_min (by norm_num) (div_nonneg (by norm_num) hl)

lemma finishMetrics_nonneg (s : StandardizedMetrics) (h : NonnegMetrics s)
    (hroi : s.roi_percentage = 0)
    (hdiff : 0 ≤ s.total_revenue - s.operational_costs) :
    NonnegMetrics (finishMetrics s) := by
  obtain ⟨h1, h2, h3, h4, h5, h6, h7, h8, h9, h10⟩ := h
  simp only [finishMetrics]
  split_ifs with hop htr htr
  · exact ⟨h1, h2, h3, h4, h5, h6, h7, mul_nonneg h4 (by norm_num),
      mul_nonneg (div_nonneg hdiff hop.le) (by norm_num), h10⟩
  · exact ⟨h1, h2, h3, h4, h5, h6, h7, h8,
      mul_nonneg (div_nonneg hdiff hop.le) (by norm_num), h10⟩
  · exact ⟨h1, h2, h3, h4, h5, h6, h7, mul_nonneg h4 (by norm_num),
      h9, h10⟩
  · exact ⟨h1, h2, h3, h4, h5, h6, h7, h8, h9, h10⟩

lemma finishMetrics_roi_zero (s : StandardizedMetrics)
    (hroi : s.roi_percentage = 0) :
    (finishMetrics s).operational_costs = 0 →
      (finishMetrics s).roi_percentage = 0 := by
  simp only [finishMetrics]
  split_ifs with hop htr htr
  · exact fun he => absurd he (ne_of_gt hop)
  · exact fun he => absurd he (ne_of_gt hop)
  · exact fun _ => hroi
  · exact fun _ => hroi

/-- C6 counterexample: a raw Shopify payload reporting revenue −100
flows straight into the standardized record, so the "no negative
fields" claim fails for arbitrary raw input. -/
theorem standardized_negative_field_cex :
    (standardize_baseline_metrics "shopify" (fun _ => -100)
      (fun _ => 0)).total_revenue = -100 ∧
    ¬(0 ≤ (standardize_baseline_metrics "shopify" (fun _ => -100)
      (fun _ => 0)).total_revenue) := by
  have h : (standardize_baseline_metrics "shopify" (fun _ => -100)
      (fun _ => 0)).total_revenue = -100 := by
    norm_num [standardize_baseline_metrics, finishMetrics, zeroStandardized,
      estimate_cac]
  refine ⟨h, ?_⟩
  rw [h]
  norm_num

/-- C6 (amended): when every raw metric and baseline-data value is
nonnegative, all ten standardized fields are nonnegative; and,
unconditionally for every platform and every raw input,
`roi_percentage` is 0 whenever `operational_costs` is 0 (the ROI
derivation only ever runs under `operational_costs > 0`). -/
theorem standardized_nonneg_of_nonneg_inputs (platform : String)
    (metrics baseline_data : String → ℚ) :
    ((∀ k, 0 ≤ metrics k) → (∀ k, 0 ≤ baseline_data k) →
      NonnegMetrics
        (standardize_baseline_metrics platform metrics baseline_data)) ∧
    ((standardize_baseline_metrics platform metrics
        baseline_data).operational_costs = 0 →
      (standardize_baseline_metrics platform metrics
        baseline_data).roi_percentage = 0) := by
  constructor
  · intro hm hb
    by_cases hp1 : platform = "shopify"
    · simp only [standardize_baseline_metrics, if_pos hp1]
      refine finishMetrics_nonneg _ ⟨hm _, hm _, hb _, hm _,
        add_nonneg (hm _) (hm _), le_refl 0,
        estimate_cac_nonneg _ _ (hm _) (hm _), le_refl 0, le_refl 0,
        mul_nonneg (hm _) (by norm_num)⟩ rfl ?_
      have := hm "total_revenue"
      dsimp only
      linarith
    · by_cases hp2 : platform = "hubspot"
      · simp only [standardize_baseline_metrics, if_neg hp1, if_pos hp2]
        refine finishMetrics_nonneg _ ⟨hm _, hm _, hb _, hm _, hm _,
          estimate_cost_per_lead_nonneg _ (hm _),
          estimate_cac_nonneg _ _ (hm _) (hm _), le_refl 0, le_refl 0,
          le_refl 0⟩ rfl ?_
        have := hm "total_revenue"
        simp only [zeroStandardized]
        linarith
      · by_cases hp3 : platform = "google_analytics"
        · simp only [standardize_baseline_metrics, if_neg hp1, if_neg hp2,
            if_pos hp3]
          refine finishMetrics_nonneg _ ⟨hm _, hm _, hb _,
            div_nonneg (hm _) (le_trans zero_le_one (le_max_left _ _)), hm _,
            estimate_cost_per_lead_nonneg _ (hm _),
            estimate_cac_nonneg _ _ (hm _) (hm _), le_refl 0, le_refl 0,
            le_refl 0⟩ rfl ?_
          have := hm "total_revenue"
          simp only [zeroStandardized]
          linarith
        · simp only [standardize_baseline_metrics, if_neg hp1, if_neg hp2,
            if_neg hp3]
          exact finishMetrics_nonneg zeroStandardized
            ⟨le_refl 0, le_refl 0, le_refl 0, le_refl 0, le_refl 0, le_refl 0,
              le_refl 0, le_refl 0, le_refl 0, le_refl 0⟩ rfl
            (by norm_num [zeroStandardized])
  · simp only [standardize_baseline_metrics]
    apply finishMetrics_roi_zero
    split_ifs <;> rfl

/-- C6 witness: a Shopify payload with every raw value 1 produces a
fully nonnegative record, and on a HubSpot payload of raw value −3
(operational costs stay 0) the ROI field is 0, exercising the
unconditional conjunct outside the nonnegative cone. -/
theorem standardized_nonneg_of_nonneg_inputs_inst :
    NonnegMetrics (standardize_baseline_metrics "shopify" (fun _ => 1)
      (fun _ => 1)) ∧
    (standardize_baseline_metrics "hubspot" (fun _ => -3)
      (fun _ => -3)).roi_percentage = 0 :=
  ⟨(standardized_nonneg_of_nonneg_inputs "shopify" (fun _ => 1)
      (fun _ => 1)).1 (fun _ => by norm_num) (fun _ => by norm_num),
   (standardized_nonneg_of_nonneg_inputs "hubspot" (fun _ => -3)
      (fun _ => -3)).2
      (by simp +decide [standardize_baseline_metrics, finishMetrics,
        zeroStandardized, estimate_cac, estimate_cost_per_lead])⟩

end SalesFunnelROI

namespace SalesFunnelROI

/-- C10: a missing funnel makes both the baseline calculation and the
performance-fee calculation return success = false with the
'Funnel not found' message and leave the store untouched; an existing
funnel with no stored ROI baseline makes the performance-fee calculation
return success = false with the missing-baseline message, again writing
nothing. -/
theorem missing_funnel_and_baseline_errors (store : Store)
    (subscription : ℤ → Option String) (funnel_id : ℤ)
    (pd cpd : PlatformData) (f : SalesFunnel) :
    (store funnel_id = none →
      (calculate_baseline_metrics store funnel_id pd).1.success = false ∧
      (calculate_baseline_metrics store funnel_id pd).1.error =
        some "Funnel not found" ∧
      (calculate_baseline_metrics store funnel_id pd).2 = store ∧
      (calculate_performance_fees store subscription funnel_id cpd).1.success
        = false ∧
      (calculate_performance_fees store subscription funnel_id cpd).1.error =
        some "Funnel not found" ∧
      (calculate_performance_fees store subscription funnel_id cpd).2 =
        store) ∧
    (store funnel_id = some f →
      (f.automation_rules.getD emptyAutomationRules).roi_baseline = none →
      (calculate_performance_fees store subscription funnel_id cpd).1.success
        = false ∧
      (calculate_performance_fees store subscription funnel_id cpd).1.error =
        some "No ROI baseline found. Please import baseline data first." ∧
      (calculate_performance_fees store subscription funnel_id cpd).2 =
        store) := by
  constructor
  · intro h
    refine ⟨?_, ?_, ?_, ?_, ?_, ?_⟩ <;>
      simp [calculate_baseline_metrics, calculate_performance_fees, h]
  · intro h hrb
    refine ⟨?_, ?_, ?_⟩ <;>
      simp [calculate_performance_fees, h, hrb]

/-- A funnel whose automation rules hold no ROI baseline. -/
def noBaselineFunnel : SalesFunnel :=
  { user_id := 1
    funnel_name := "demo"
    automation_rules := none
    total_investment := 0
    generated_revenue := 0
    calculated_roi := 0 }

/-- A store containing only `noBaselineFunnel` under id 1. -/
def noBaselineStore : Store :=
  fun i => if i = 1 then some noBaselineFunnel else none

/-- An empty current-period payload. -/
def emptyPlatformData : PlatformData :=
  { platform := some "shopify"
    metrics := fun _ => 0
    baseline_data := fun _ => 0
    period_days := some 30 }

/-- C10 witness: the not-found path on an empty store and the
missing-baseline path on a store holding a baseline-less funnel. -/
theorem missing_funnel_and_baseline_errors_inst :
    ((calculate_baseline_metrics (fun _ => none) 5
        emptyPlatformData).1.success = false ∧
      (calculate_baseline_metrics (fun _ => none) 5
        emptyPlatformData).1.error = some "Funnel not found" ∧
      (calculate_baseline_metrics (fun _ => none) 5 emptyPlatformData).2 =
        (fun _ => none) ∧
      (calculate_performance_fees (fun _ => none) (fun _ => none) 5
        emptyPlatformData).1.success = false ∧
      (calculate_performance_fees (fun _ => none) (fun _ => none) 5
        emptyPlatformData).1.error = some "Funnel not found" ∧
      (calculate_performance_fees (fun _ => none) (fun _ => none) 5
        emptyPlatformData).2 = (fun _ => none)) ∧
    ((calculate_performance_fees noBaselineStore (fun _ => none) 1
        emptyPlatformData).1.success = false ∧
      (calculate_performance_fees noBaselineStore (fun _ => none) 1
        emptyPlatformData).1.error =
        some "No ROI baseline found. Please import baseline data first." ∧
      (calculate_performance_fees noBaselineStore (fun _ => none) 1
        emptyPlatformData).2 = noBaselineStore) :=
  ⟨(missing_funnel_and_baseline_errors (fun _ => none) (fun _ => none) 5
      emptyPlatformData emptyPlatformData noBaselineFunnel).1 rfl,
   (missing_funnel_and_baseline_errors noBaselineStore (fun _ => none) 1
      emptyPlatformData emptyPlatformData noBaselineFunnel).2
      (by simp [noBaselineStore]) rfl⟩

end SalesFunnelROI
